import Mathlib

/-!
Shallow embedding of the OpenMCS-Agent core (session context, memory tools,
knowledge-base tools, supervisor/worker orchestration) translated from
`src/OpenMCS_Agent`, together with theorems settling the specification claims.
-/

/-- Python `dict` lookup: first (and, for dicts built through `dictSet`, only)
binding of `k`, as `d.get(k)` returning `None` when absent. -/
def dictGet? (d : List (String × String)) (k : String) : Option String :=
  (d.find? (fun p => p.1 = k)).map (fun p => p.2)

/-- Python `d.get(k, default)`. -/
def dictGetD (d : List (String × String)) (k : String) (default : String) : String :=
  (dictGet? d k).getD default

/-- Python `d[k] = v`: replace the binding in place when the key is present,
append it otherwise (insertion-order semantics of a Python dict). -/
def dictSet (d : List (String × String)) (k v : String) : List (String × String) :=
  if d.any (fun p => p.1 = k) then
    d.map (fun p => if p.1 = k then (k, v) else p)
  else
    d ++ [(k, v)]

theorem find?_map_set (t : List (String × String)) (k v : String)
    (h : t.any (fun p => p.1 = k) = true) :
    (t.map (fun p => if p.1 = k then (k, v) else p)).find?
      (fun p => p.1 = k) = some (k, v) := by
  induction t with
  | nil => simp at h
  | cons p t ih =>
    by_cases hp : p.1 = k
    · simp [hp]
    · simp only [List.any_cons, Bool.or_eq_true, decide_eq_true_eq] at h
      have ht : t.any (fun p => p.1 = k) = true := by
        simpa using h.resolve_left hp
      simp only [List.map_cons, if_neg hp]
      rw [List.find?_cons_of_neg _ (by simpa using hp)]
      exact ih ht

theorem dictGet?_dictSet_self (d : List (String × String)) (k v : String) :
    dictGet? (dictSet d k v) k = some v := by
  unfold dictSet dictGet?
  by_cases h : d.any (fun p => p.1 = k) = true
  · rw [if_pos h, find?_map_set d k v h]
    rfl
  · rw [if_neg h]
    have hnone : d.find? (fun p => decide (p.1 = k)) = none := by
      rw [List.find?_eq_none]
      intro x hx hpx
      simp only [decide_eq_true_eq] at hpx
      exact h (List.any_eq_true.2 ⟨x, hx, by simpa using hpx⟩)
    rw [List.find?_append, hnone]
    simp

/-- A document as stored in the vector store: `page_content` plus a string
metadata mapping (`langchain_core.documents.Document`). -/
structure Doc where
  page_content : String
  metadata : List (String × String)
  deriving DecidableEq, Repr

/-- Session context, from `core/schemas.py` (`Context` dataclass).  The two
vector-store handles are modelled as optional lists of stored documents
(`none` models the Python field value `None`). -/
structure Context where
  operator_id : String
  uploaded_sdk_docs : List (String × String) := []
  uploaded_framework_files : List (String × String) := []
  metadata : List (String × String) := []
  memory : List (String × String) := []
  vector_store : Option (List Doc) := none
  temp_vector_store : Option (List Doc) := none
  deriving DecidableEq, Repr

/-- Manifest entry, from the on-disk manifest JSON described in
`tools/rag_tool.py` (`hash`, `mtime`, `doc_ids`). -/
structure ManifestEntry where
  hash : String
  mtime : Int
  doc_ids : List String
  deriving DecidableEq, Repr

/-- The manifest document: a `files` mapping from absolute path to entry. -/
structure Manifest where
  files : List (String × ManifestEntry)
  deriving DecidableEq, Repr

/-- The state a tool call can observe and mutate: the process-wide active
context slot (`core/context_manager.py`, `None` when no session is active)
and the on-disk manifest file (`none` models an absent file). -/
structure World where
  ctx : Option Context
  manifestFile : Option Manifest
  deriving DecidableEq, Repr

/-- `_load_manifest` from `tools/rag_tool.py`: parse the manifest file,
returning the empty dict when the file is missing. -/
def load_manifest (mf : Option Manifest) : Manifest :=
  mf.getD ⟨[]⟩

-- *** Memory tools, from tools/memory_tool.py ***

/-- `save_memory(key, value)`: sentinel when no context is active, else store
the pair in the context memory dict and report success. -/
def save_memory (w : World) (key value : String) : String × World :=
  match w.ctx with
  | none => ("Error: Context not active.", w)
  | some c =>
      (s!"Memory saved: {key}",
       { w with ctx := some { c with memory := dictSet c.memory key value } })

/-- `read_memory(key)`: sentinel when no context is active, else
`context.memory.get(key, "Memory not found.")`. -/
def read_memory (w : World) (key : String) : String × World :=
  match w.ctx with
  | none => ("Error: Context not active.", w)
  | some c => (dictGetD c.memory key "Memory not found.", w)

/-- `list_memories()`: sentinel when no context is active, else the printed
list of memory keys. -/
def list_memories (w : World) : String × World :=
  match w.ctx with
  | none => ("Error: Context not active.", w)
  | some c => (toString (c.memory.map (fun p => p.1)), w)

-- *** Python string primitives (kernel-computable models) ***

/-- ASCII whitespace test used by the model of Python `str.strip`. -/
def pySpace (c : Char) : Bool :=
  c = ' ' || c = '\t' || c = '\n' || c = '\r'

/-- Python `s.strip()`: drop leading and trailing whitespace. -/
def pyStrip (s : String) : String :=
  String.mk (((s.toList.dropWhile pySpace).reverse.dropWhile pySpace).reverse)

/-- Splitting helper over character lists, accumulating the current field. -/
def splitCharAux (sep : Char) : List Char → List Char → List (List Char)
  | [], acc => [acc.reverse]
  | c :: cs, acc =>
      if c = sep then acc.reverse :: splitCharAux sep cs []
      else splitCharAux sep cs (c :: acc)

/-- Python `s.split(sep)` for a one-character separator (keeps empty fields,
returns `[""]` on the empty string, exactly like Python). -/
def pySplit (s : String) (sep : Char) : List String :=
  (splitCharAux sep s.toList []).map String.mk

/-- `os.path.basename` for the slash-separated paths the tools receive. -/
def basename (p : String) : String :=
  (pySplit p '/').getLastD ""

-- *** Vector store handle, from tools/rag_tool.py ***

/-- `ensure_vector_store(context)`: return the existing handle, or attach a
store handle when the field is `None`.  The backend collection a fresh handle
attaches to is modelled as empty; scenarios with pre-existing stored documents
start from a context whose handle is already attached. -/
def ensure_vector_store (c : Context) : List Doc × Context :=
  match c.vector_store with
  | some vs => (vs, c)
  | none => ([], { c with vector_store := some [] })

-- *** Basic artifact tools, from tools/basic_tools.py ***

/-- `upload_sdk_doc(name, content)`: sentinel without a context; otherwise
record the text under `name` in `uploaded_sdk_docs` and also add a document
with metadata `source=name, type=sdk_doc` to the persistent vector store. -/
def upload_sdk_doc (w : World) (name content : String) : String × World :=
  match w.ctx with
  | none => ("Error: Context not active.", w)
  | some c =>
      let c1 := { c with uploaded_sdk_docs := dictSet c.uploaded_sdk_docs name content }
      let r := ensure_vector_store c1
      let doc : Doc := ⟨content, [("source", name), ("type", "sdk_doc")]⟩
      let c2 := { r.2 with vector_store := some (r.1 ++ [doc]) }
      let n := content.length
      (s!"SDK document \x27{name}\x27 uploaded ({n} chars) and indexed in knowledge base.",
       { w with ctx := some c2 })

/-- `inspect_artifacts()`: sentinel without a context; otherwise a summary of
the uploaded artifact names. -/
def inspect_artifacts (w : World) : String × World :=
  match w.ctx with
  | none => ("Error: Context not active.", w)
  | some c =>
      let sdk := toString (c.uploaded_sdk_docs.map (fun p => p.1))
      let fw := toString (c.uploaded_framework_files.map (fun p => p.1))
      (s!"SDK docs: {sdk}; framework files: {fw}", w)

-- *** Knowledge-base tools, from tools/rag_tool.py ***

/-- `update_knowledge_base_from_files(file_paths)` exactly as committed in
`tools/rag_tool.py`: split the argument on `;`, strip each piece, and for each
nonempty path either report `Skip (not found)` or read the text (UTF-8 with a
lossy fallback, so reading is total) and add one document with metadata
`source_path` to the store, reporting `Indexed: <basename>`.  The manifest is
loaded (and `files` extracted into an unused local) but never consulted,
updated, or written back.  `fs` maps absolute paths to decoded file text. -/
def update_knowledge_base_from_files (fs : List (String × String)) (w : World)
    (file_paths : String) : String × World :=
  match w.ctx with
  | none => ("Error: Context not active.", w)
  | some c =>
      let r := ensure_vector_store c
      -- manifest := _load_manifest(); files_map := manifest.get("files", {}) (unused)
      let _files_map := (load_manifest w.manifestFile).files
      let paths := ((pySplit file_paths ';').map pyStrip).filter (fun p => p ≠ "")
      let step := fun (st : List String × List Doc) (p : String) =>
        match dictGet? fs p with
        | none => (st.1 ++ [s!"Skip (not found): {p}"], st.2)
        | some content =>
            let b := basename p
            (st.1 ++ [s!"Indexed: {b}"],
             st.2 ++ [⟨content, [("source_path", p)]⟩])
      let out := paths.foldl step ([], r.1)
      (String.intercalate "\n" out.1,
       { w with ctx := some { r.2 with vector_store := some out.2 } })

/-- `search_knowledge_base(query)`: sentinel without a context; otherwise the
top-4 scored results formatted per line, with the unscored fallback branch
(taken when the backend does not support relevance scores) selected by
`scoringSupported`.  `retrieve` models the backend similarity ranking over the
stored documents; Python renders the score with three decimals, modelled by
`toString`. -/
def search_knowledge_base (retrieve : List Doc → String → List (Doc × ℚ))
    (scoringSupported : Bool) (w : World) (query : String) : String × World :=
  match w.ctx with
  | none => ("Error: Context not active.", w)
  | some c =>
      let r := ensure_vector_store c
      let w1 : World := { w with ctx := some r.2 }
      let results := (retrieve r.1 query).take 4
      if scoringSupported then
        if results.isEmpty then
          ("No relevant information found in knowledge base.", w1)
        else
          let lines := results.map (fun dr =>
            let src := dictGetD dr.1.metadata "source"
              (dictGetD dr.1.metadata "source_path" "unknown")
            let sc := toString dr.2
            s!"Score: {sc}\nSource: {src}\nContent: " ++ dr.1.page_content)
          (String.intercalate "\n\n" lines, w1)
      else
        if results.isEmpty then
          ("No relevant information found in knowledge base.", w1)
        else
          let lines := results.map (fun dr =>
            let src := dictGetD dr.1.metadata "source"
              (dictGetD dr.1.metadata "source_path" "unknown")
            s!"Source: {src}\nContent: " ++ dr.1.page_content)
          (String.intercalate "\n\n" lines, w1)

/-- The gateway calls a `rag_answer` invocation makes, recorded so theorems
can speak about how many retrievals and query rewrites occur. -/
structure RagCalls where
  retrievals : List String
  rewrites : List String
  deriving DecidableEq, Repr

/-- `rag_answer(query)` exactly as committed in `tools/rag_tool.py`: sentinel
without a context; otherwise one unscored `similarity_search(query, k=4)`
(modelled as the scored backend ranking with the scores dropped), an early
return when no documents come back, and a single completion call over the
concatenated chunks.  `complete system user` returns `none` when the gateway
invocation raises, which the code converts to a `RAG error:` string.  There is
no score threshold and no rewrite, so the recorded `rewrites` trace is
built nowhere. -/
def rag_answer (retrieve : List Doc → String → List (Doc × ℚ))
    (complete : String → String → Option String) (w : World) (query : String) :
    String × World × RagCalls :=
  match w.ctx with
  | none => ("Error: Context not active.", w, ⟨[], []⟩)
  | some c =>
      let r := ensure_vector_store c
      let w1 : World := { w with ctx := some r.2 }
      let docs := ((retrieve r.1 query).take 4).map (fun dr => dr.1)
      if docs.isEmpty then
        ("No relevant documents found. Please supply documentation first.", w1, ⟨[query], []⟩)
      else
        let ctx_str := String.intercalate "\n\n" (docs.map (fun d => d.page_content))
        let system :=
          "You are an expert on OpenMCS. Use the provided context to answer the user\x27s question directly and concisely.\nContext:\n"
            ++ ctx_str
        match complete system query with
        | some content => (content, w1, ⟨[query], []⟩)
        | none => ("RAG error: gateway invocation failed", w1, ⟨[query], []⟩)

/-- Best relevance score among retrieved results, the quantity the spec
compares against the 0.35 threshold (`none` when nothing was retrieved). -/
def bestScore (results : List (Doc × ℚ)) : Option ℚ :=
  (results.map (fun dr => dr.2)).max?

-- *** Indexer scenarios (concrete inputs for the manifest claims) ***

/-- The document the original indexing of `/docs/a.txt` (content "hello")
left in the store. -/
def helloDoc : Doc := ⟨"hello", [("source_path", "/docs/a.txt")]⟩

/-- The document indexing the modified content "hello v2" produces. -/
def helloV2Doc : Doc := ⟨"hello v2", [("source_path", "/docs/a.txt")]⟩

/-- A world in which `/docs/a.txt` is already indexed: the store holds its
document and the manifest records an entry for the path (hash, mtime and
chunk-id list quantified, since the committed code never reads them). -/
def indexedWorld (h : String) (t : Int) (ids : List String) : World :=
  ⟨some ⟨"op", [], [], [], [], some [helloDoc], none⟩,
   some ⟨[("/docs/a.txt", ⟨h, t, ids⟩)]⟩⟩

/-- Number of stored documents whose `source_path` metadata names `path`. -/
def countDocsFor (w : World) (path : String) : Nat :=
  ((w.ctx.bind (fun c => c.vector_store)).getD []).countP
    (fun d => dictGet? d.metadata "source_path" == some path)

-- *** Supervisor routing, from core/multi_agent.py ***

/-- A parsed Python JSON value, as produced by `JsonOutputParser`: a string,
a dict, or any other shape (list, number, null, ...), which the routing code
treats uniformly because only dicts have a `.get` method. -/
inductive PyObj where
  | pstr (s : String)
  | pdict (d : List (String × PyObj))
  | pother
  deriving Repr

/-- Python dict lookup over a parsed JSON object. -/
def dictGetPy (d : List (String × PyObj)) (k : String) : Option PyObj :=
  (d.find? (fun p => p.1 = k)).map (fun p => p.2)

/-- The tail of `supervisor_node` (core/multi_agent.py, lines 161-170): on a
raised invocation/parse error the `except` branch yields `"FINISH"`; on a
parsed dict the code takes `result.get("next", "FINISH")`; on any parsed
non-dict `.get` raises `AttributeError`, which the same `except` turns into
`"FINISH"`.  The returned value becomes the state's `next` routing field with
no further validation. -/
def supervisor_next : Except Unit PyObj → PyObj
  | .error _ => .pstr "FINISH"
  | .ok (.pdict d) => (dictGetPy d "next").getD (.pstr "FINISH")
  | .ok (.pstr _) => .pstr "FINISH"
  | .ok .pother => .pstr "FINISH"

/-- The closed worker-name set of the graph. -/
def workerNames : List String := ["Developer", "Support", "Scientist"]

/-- Graph nodes of `build_multi_agent_graph`. -/
inductive GNode where
  | Supervisor
  | Developer
  | Support
  | Scientist
  deriving DecidableEq, Repr

/-- A conditional-edge target: a named node or the END terminal. -/
inductive GTarget where
  | node (g : GNode)
  | terminal
  deriving DecidableEq, Repr

/-- The conditional-edge mapping registered on the Supervisor node
(core/multi_agent.py, lines 337-346).  A routing value outside the mapping
has no edge: the executor fails on it rather than reaching the terminal. -/
def path_map : String → Option GTarget
  | "Developer" => some (.node .Developer)
  | "Support" => some (.node .Support)
  | "Scientist" => some (.node .Scientist)
  | "FINISH" => some .terminal
  | _ => none

/-- Outcome of one bounded graph run: normal termination at END after the
given number of node transitions, the step bound tripping as a hard failure,
or a routing value with no registered edge (also a raised failure). -/
inductive RunResult where
  | finished (steps : Nat)
  | boundExceeded
  | invalidRoute (next : String)
  deriving DecidableEq, Repr

/-- Modelled from the spec: the bounded graph executor itself (the
supervisor/worker step loop with its step bound, default 20) is LangGraph
library code, not part of this repository's sources; only the wiring — start
edge to Supervisor, Supervisor's conditional edges through `path_map`, and
every worker's fixed edge back to Supervisor — is embedded from
`build_multi_agent_graph`.  `decisions i` is the `next` string the i-th
supervisor invocation stores (the output of `supervisor_next`); `fuel` is the
remaining step budget and `steps` the transitions taken so far. -/
def runGraph (decisions : Nat → String) : Nat → GNode → Nat → Nat → RunResult
  | 0, _, _, _ => .boundExceeded
  | fuel + 1, .Supervisor, steps, i =>
      match path_map (decisions i) with
      | some (.node wkr) => runGraph decisions fuel wkr (steps + 1) (i + 1)
      | some .terminal => .finished (steps + 1)
      | none => .invalidRoute (decisions i)
  | fuel + 1, .Developer, steps, i => runGraph decisions fuel .Supervisor (steps + 1) i
  | fuel + 1, .Support, steps, i => runGraph decisions fuel .Supervisor (steps + 1) i
  | fuel + 1, .Scientist, steps, i => runGraph decisions fuel .Supervisor (steps + 1) i

/-- The default step bound stated by the spec for the orchestration graph. -/
def defaultStepBound : Nat := 20

-- *** Messages and the worker wrapper, from core/multi_agent.py ***

/-- Message role variants. -/
inductive Role where
  | user
  | assistant
  | system
  | tool
  deriving DecidableEq, Repr

/-- A typed content block: a text block or an image block. -/
inductive Block where
  | text (s : String)
  | image (url : String)
  deriving DecidableEq, Repr

/-- Message content: plain text or a list of typed blocks. -/
inductive MsgContent where
  | plain (s : String)
  | blocks (bs : List Block)
  deriving DecidableEq, Repr

/-- A conversation message. -/
structure Msg where
  role : Role
  content : MsgContent
  deriving DecidableEq, Repr

/-- Python `str()` of a message content: the string itself for plain content;
for block-list content Python yields the list repr, modelled as a
deterministic total rendering (no claim depends on its exact shape). -/
def pyStr : MsgContent → String
  | .plain s => s
  | .blocks bs =>
      toString (bs.map (fun b => match b with | .text s => s | .image u => u))

/-- Boolean list-prefix test (Python `startswith` over the character list). -/
def listStartsWith : List Char → List Char → Bool
  | [], _ => true
  | _ :: _, [] => false
  | a :: as, b :: bs => a = b && listStartsWith as bs

/-- Python `s.startswith(pre)`. -/
def pyStartswith (pre s : String) : Bool :=
  listStartsWith pre.toList s.toList

/-- Python `needle in hay` substring test. -/
def pyIn (needle hay : String) : Bool :=
  go needle.toList hay.toList
where
  go (needle : List Char) : List Char → Bool
    | [] => listStartsWith needle []
    | c :: cs => listStartsWith needle (c :: cs) || go needle cs

/-- Python `s.lower()` (ASCII model). -/
def pyLower (s : String) : String :=
  String.mk (s.toList.map Char.toLower)

/-- The identity tag prepended by a worker, `f"**[{name}]**\n\n"`. -/
def tagString (name : String) : String :=
  "**[" ++ name ++ "]**\n\n"

/-- The tagging step at the end of `worker_node` (lines 302-308): prepend the
tag to the message content unless the stringified content already starts with
it. -/
def tagMsg (name : String) (m : Msg) : Msg :=
  if pyStartswith (tagString name) (pyStr m.content) then m
  else { m with content := .plain (tagString name ++ pyStr m.content) }

/-- Apply the identity tag to the final message when it is an assistant
message (`if new_messages and isinstance(new_messages[-1], AIMessage)`). -/
def tagLast (name : String) (ms : List Msg) : List Msg :=
  match ms.getLast? with
  | some m => if m.role = .assistant then ms.dropLast ++ [tagMsg name m] else ms
  | none => ms

/-- The vision-capability keyword allowlist (line 274). -/
def visionKeywords : List String :=
  ["gpt-4", "claude-3", "gemini", "vision", "omni", "qwen", "vl", "image"]

/-- The per-message sanitization loop body of `worker_node` (lines 213-288):
a user message with block content containing an image is passed through when
the lowercased model name matches a vision keyword, and otherwise replaced by
the concatenated text blocks plus the ignored-image note; every other message
is appended unchanged.  Each input message yields exactly one output
message. -/
def sanitizeMsg (modelName : String) (m : Msg) : Msg :=
  match m.role, m.content with
  | .user, .blocks bs =>
      let has_image := bs.any (fun b => match b with | .image _ => true | .text _ => false)
      if has_image then
        let model_name := pyLower modelName
        let is_vision := visionKeywords.any (fun v => pyIn v model_name)
        if is_vision then m
        else
          let texts := bs.filterMap (fun b => match b with | .text s => some s | .image _ => none)
          let clean_text := String.intercalate " " texts
            ++ "\n[Image Attachment Ignored: Model does not support vision]"
          ⟨.user, .plain clean_text⟩
      else m
  | _, _ => m

/-- The injected system message carrying the worker's role prompt. -/
def systemMsg (prompt : String) : Msg :=
  ⟨.system, .plain prompt⟩

/-- The message flow of `worker_node` (lines 193-310): build the injected
input (system prompt plus the sanitized history), invoke the agent executor,
keep only the suffix of the result beyond the input length, and tag the final
assistant message.  The context side-channel install at the top of the node
mutates only the process-global context slot and is invisible to the message
flow modelled here. -/
def worker_node (name prompt modelName : String)
    (agentExec : List Msg → List Msg) (msgs : List Msg) : List Msg :=
  let messages_with_system := systemMsg prompt :: msgs.map (sanitizeMsg modelName)
  let result := agentExec messages_with_system
  let new_messages := result.drop messages_with_system.length
  tagLast name new_messages

-- *** Helper lemmas ***

theorem listStartsWith_self_append (l m : List Char) :
    listStartsWith l (l ++ m) = true := by
  induction l with
  | nil => rfl
  | cons a as ih => simp [listStartsWith, ih]

theorem pyStartswith_self_append (p x : String) :
    pyStartswith p (p ++ x) = true := by
  unfold pyStartswith
  have hd : (p ++ x).toList = p.toList ++ x.toList := String.data_append p x
  rw [hd]
  exact listStartsWith_self_append _ _

theorem tagMsg_role (name : String) (m : Msg) : (tagMsg name m).role = m.role := by
  unfold tagMsg
  split <;> rfl

theorem tagMsg_idem (name : String) (m : Msg) :
    tagMsg name (tagMsg name m) = tagMsg name m := by
  unfold tagMsg
  by_cases h : pyStartswith (tagString name) (pyStr m.content) = true
  · simp [h]
  · simp only [h, if_neg, Bool.false_eq_true, not_false_iff, if_false]
    have : pyStr (MsgContent.plain (tagString name ++ pyStr m.content))
        = tagString name ++ pyStr m.content := rfl
    simp [this, pyStartswith_self_append]

theorem tagLast_concat_assistant (name : String) (l : List Msg) (a : Msg)
    (h : a.role = Role.assistant) :
    tagLast name (l ++ [a]) = l ++ [tagMsg name a] := by
  unfold tagLast
  rw [List.getLast?_concat]
  simp [h, List.dropLast_concat]

theorem tagLast_concat_other (name : String) (l : List Msg) (a : Msg)
    (h : ¬a.role = Role.assistant) :
    tagLast name (l ++ [a]) = l ++ [a] := by
  unfold tagLast
  rw [List.getLast?_concat]
  simp [h]

theorem tagLast_idem (name : String) (ms : List Msg) :
    tagLast name (tagLast name ms) = tagLast name ms := by
  rcases List.eq_nil_or_concat ms with rfl | ⟨l, a, rfl⟩
  · rfl
  · rw [List.concat_eq_append]
    by_cases h : a.role = Role.assistant
    · rw [tagLast_concat_assistant name l a h,
        tagLast_concat_assistant name l (tagMsg name a) (by rw [tagMsg_role]; exact h),
        tagMsg_idem]
    · rw [tagLast_concat_other name l a h, tagLast_concat_other name l a h]

/-- Claim C7: the message set a worker returns to the graph is exactly the
suffix of the agent executor's resulting message list beyond the injected
input (system prompt plus sanitized history) — an agent that appends
`newMsgs` to its input yields exactly `newMsgs` (with the identity tag on a
final assistant message) — and tagging is idempotent: rerunning the tagging
step never doubles the tag. -/
theorem C7_worker_suffix_and_idempotent_tag :
    (∀ (name prompt modelName : String) (msgs newMsgs : List Msg),
        worker_node name prompt modelName (fun input => input ++ newMsgs) msgs
          = tagLast name newMsgs)
    ∧ (∀ (name : String) (ms : List Msg),
        tagLast name (tagLast name ms) = tagLast name ms)
    ∧ (∀ (name : String) (m : Msg), tagMsg name (tagMsg name m) = tagMsg name m) := by
  refine ⟨?_, tagLast_idem, tagMsg_idem⟩
  intro name prompt modelName msgs newMsgs
  unfold worker_node
  simp [List.drop_left]

/-- Claim C8: every context-requiring tool invoked with no active session
context returns the sentinel string and leaves the world (context slot,
stores, manifest) unchanged; none raises. -/
theorem C8_context_absent_sentinel :
    ∀ (w : World), w.ctx = none →
      ∀ (key value query fp name content : String)
        (fs : List (String × String))
        (retrieve : List Doc → String → List (Doc × ℚ)) (scored : Bool)
        (complete : String → String → Option String),
        save_memory w key value = ("Error: Context not active.", w)
        ∧ read_memory w key = ("Error: Context not active.", w)
        ∧ list_memories w = ("Error: Context not active.", w)
        ∧ search_knowledge_base retrieve scored w query
            = ("Error: Context not active.", w)
        ∧ update_knowledge_base_from_files fs w fp
            = ("Error: Context not active.", w)
        ∧ rag_answer retrieve complete w query
            = ("Error: Context not active.", w, ⟨[], []⟩)
        ∧ upload_sdk_doc w name content = ("Error: Context not active.", w)
        ∧ inspect_artifacts w = ("Error: Context not active.", w) := by
  rintro ⟨ctx, mf⟩ h key value query fp name content fs retrieve scored complete
  cases h
  refine ⟨rfl, rfl, rfl, rfl, rfl, rfl, rfl, rfl⟩

/-- Witness for C8 at a concrete empty world and concrete tool arguments. -/
theorem C8_witness :
    save_memory ⟨none, none⟩ "color" "blue" = ("Error: Context not active.", ⟨none, none⟩)
    ∧ search_knowledge_base (fun _ _ => []) true ⟨none, none⟩ "q"
        = ("Error: Context not active.", ⟨none, none⟩) := by
  have h := C8_context_absent_sentinel ⟨none, none⟩ rfl "color" "blue" "q" "p" "n" "c"
    [] (fun _ _ => []) true (fun _ _ => none)
  exact ⟨h.1, h.2.2.2.1⟩

/-- Claim C9: with an active context, `save_memory(key, value)` followed by
`read_memory(key)` returns `value`, and `read_memory` of a key with no
binding returns the sentinel "Memory not found." instead of raising. -/
theorem C9_memory_roundtrip :
    ∀ (c : Context) (mf : Option Manifest) (key value missing : String),
      (read_memory (save_memory ⟨some c, mf⟩ key value).2 key).1 = value
      ∧ (dictGet? c.memory missing = none →
          (read_memory ⟨some c, mf⟩ missing).1 = "Memory not found.") := by
  intro c mf key value missing
  constructor
  · simp [save_memory, read_memory, dictGetD, dictGet?_dictSet_self]
  · intro h
    simp [read_memory, dictGetD, h]

/-- Witness for C9: the spec's concrete scenario, saving "blue" under
"color" and reading the absent key "size". -/
theorem C9_witness :
    (read_memory (save_memory ⟨some ⟨"op", [], [], [], [], none, none⟩, none⟩
        "color" "blue").2 "color").1 = "blue"
    ∧ (read_memory ⟨some ⟨"op", [], [], [], [], none, none⟩, none⟩ "size").1
        = "Memory not found." := by
  have h := C9_memory_roundtrip ⟨"op", [], [], [], [], none, none⟩ none
    "color" "blue" "size"
  exact ⟨h.1, h.2 rfl⟩

/-- Claim C10: with an active context, `upload_sdk_doc(name, content)`
records the content under `name` in `uploaded_sdk_docs` and additionally
appends a document with that content and metadata `source=name,
type=sdk_doc` to the persistent vector store; every other context field and
the manifest file are unchanged. -/
theorem C10_upload_sdk_doc_effects :
    ∀ (c : Context) (mf : Option Manifest) (name content : String),
      ∃ c' : Context,
        (upload_sdk_doc ⟨some c, mf⟩ name content).2
          = ⟨some c', mf⟩
        ∧ dictGet? c'.uploaded_sdk_docs name = some content
        ∧ c'.vector_store
            = some (c.vector_store.getD []
                ++ [⟨content, [("source", name), ("type", "sdk_doc")]⟩])
        ∧ c'.operator_id = c.operator_id
        ∧ c'.uploaded_framework_files = c.uploaded_framework_files
        ∧ c'.metadata = c.metadata
        ∧ c'.memory = c.memory
        ∧ c'.temp_vector_store = c.temp_vector_store := by
  intro c mf name content
  cases hv : c.vector_store with
  | none =>
      refine ⟨{ c with
        uploaded_sdk_docs := dictSet c.uploaded_sdk_docs name content,
        vector_store := some [⟨content, [("source", name), ("type", "sdk_doc")]⟩] },
        ?_, ?_, ?_, rfl, rfl, rfl, rfl, rfl⟩
      · simp [upload_sdk_doc, ensure_vector_store, hv]
      · exact dictGet?_dictSet_self _ _ _
      · simp [hv]
  | some vs =>
      refine ⟨{ c with
        uploaded_sdk_docs := dictSet c.uploaded_sdk_docs name content,
        vector_store := some (vs ++ [⟨content, [("source", name), ("type", "sdk_doc")]⟩]) },
        ?_, ?_, ?_, rfl, rfl, rfl, rfl, rfl⟩
      · simp [upload_sdk_doc, ensure_vector_store, hv]
      · exact dictGet?_dictSet_self _ _ _
      · simp [hv]

/-- Claim C1, counterexample: a well-formed routing response whose `next`
value lies outside the closed worker-name set — here `{"next": "Manager"}` —
is passed through unvalidated instead of defaulting to FINISH, and the
resulting routing value has no edge in the graph's conditional-edge mapping,
so the run does not transition to Terminal. -/
theorem C1_counterexample :
    ("Manager" ∈ workerNames ++ ["FINISH"] → False)
    ∧ supervisor_next (.ok (.pdict [("next", .pstr "Manager")]))
        = .pstr "Manager"
    ∧ (supervisor_next (.ok (.pdict [("next", .pstr "Manager")]))
        = .pstr "FINISH" → False)
    ∧ path_map "Manager" = none := by
  refine ⟨by decide, rfl, ?_, rfl⟩
  intro h
  rw [show supervisor_next (.ok (.pdict [("next", PyObj.pstr "Manager")]))
      = PyObj.pstr "Manager" from rfl] at h
  injection h with h'
  exact absurd h' (by decide)

/-- Claim C1, amended: a raised invocation/parse error, a parsed non-dict
response, and a parsed dict without a `next` key all default the routing
field to FINISH; but a parsed `next` value is stored without validation
against the closed worker-name set, whatever it is. -/
theorem C1_supervisor_fallback :
    (∀ e, supervisor_next (.error e) = .pstr "FINISH")
    ∧ (∀ s, supervisor_next (.ok (.pstr s)) = .pstr "FINISH")
    ∧ supervisor_next (.ok .pother) = .pstr "FINISH"
    ∧ (∀ d, dictGetPy d "next" = none →
        supervisor_next (.ok (.pdict d)) = .pstr "FINISH")
    ∧ (∀ d v, dictGetPy d "next" = some v →
        supervisor_next (.ok (.pdict d)) = v) := by
  refine ⟨fun e => rfl, fun s => rfl, rfl, ?_, ?_⟩
  · intro d h
    simp [supervisor_next, h]
  · intro d v h
    simp [supervisor_next, h]

/-- Witness for the amended C1 at concrete routing responses: an invocation
error, a dict with no `next` key, and a dict carrying a valid worker name. -/
theorem C1_witness :
    supervisor_next (.error ()) = .pstr "FINISH"
    ∧ supervisor_next (.ok (.pdict [("other", .pstr "x")])) = .pstr "FINISH"
    ∧ supervisor_next (.ok (.pdict [("next", .pstr "Developer")]))
        = .pstr "Developer" :=
  ⟨C1_supervisor_fallback.1 (),
   C1_supervisor_fallback.2.2.2.1 [("other", .pstr "x")] rfl,
   C1_supervisor_fallback.2.2.2.2 [("next", .pstr "Developer")] _ rfl⟩

/-- Claim C4, counterexample: a retrieval whose best relevance score is 0.1,
below the 0.35 threshold, triggers zero query rewrites — not the exactly-one
rewrite pass the claim requires — because the committed `rag_answer` has no
scoring, no threshold, and no rewrite logic at all. -/
theorem C4_no_rewrite_counterexample :
    bestScore ((fun (_ : List Doc) (_ : String) =>
        [(⟨"chunk", [("source", "s")]⟩, (1 : ℚ)/10)]) [] "q") = some ((1 : ℚ)/10)
    ∧ (1 : ℚ)/10 < 35/100
    ∧ (rag_answer
        (fun _ _ => [(⟨"chunk", [("source", "s")]⟩, (1 : ℚ)/10)])
        (fun _ _ => some "answer")
        ⟨some ⟨"op", [], [], [], [], some [], none⟩, none⟩ "q").2.2.rewrites.length = 0
    ∧ ((rag_answer
        (fun _ _ => [(⟨"chunk", [("source", "s")]⟩, (1 : ℚ)/10)])
        (fun _ _ => some "answer")
        ⟨some ⟨"op", [], [], [], [], some [], none⟩, none⟩ "q").2.2.rewrites.length = 1
        → False) := by
  refine ⟨rfl, by norm_num, rfl, ?_⟩
  intro h
  rw [show (rag_answer
      (fun _ _ => [(⟨"chunk", [("source", "s")]⟩, (1 : ℚ)/10)])
      (fun _ _ => some "answer")
      ⟨some ⟨"op", [], [], [], [], some [], none⟩, none⟩ "q").2.2.rewrites.length = 0
    from rfl] at h
  exact absurd h (by decide)

/-- Claim C4, amended: `rag_answer` performs no query rewrite whatsoever and
issues at most one retrieval attempt per call, whatever the retrieval scores
or the gateway's behavior. -/
theorem C4_no_rewrite_ever :
    ∀ (retrieve : List Doc → String → List (Doc × ℚ))
      (complete : String → String → Option String) (w : World) (query : String),
      (rag_answer retrieve complete w query).2.2.rewrites = []
      ∧ (rag_answer retrieve complete w query).2.2.retrievals.length ≤ 1 := by
  intro retrieve complete w query
  unfold rag_answer
  rcases w with ⟨ctx, mf⟩
  cases ctx with
  | none => exact ⟨rfl, by simp⟩
  | some c =>
      simp only []
      split
      · exact ⟨rfl, by simp⟩
      · split <;> exact ⟨rfl, by simp⟩

-- *** Graph runs: helper lemmas for the termination claim ***

theorem path_map_of_worker (s : String) (h : s ∈ workerNames) :
    ∃ g, path_map s = some (GTarget.node g) := by
  simp only [workerNames, List.mem_cons, List.mem_singleton] at h
  rcases h with rfl | rfl | rfl | h
  · exact ⟨.Developer, rfl⟩
  · exact ⟨.Support, rfl⟩
  · exact ⟨.Scientist, rfl⟩
  · cases h

theorem runGraph_finished_le (d : Nat → String) :
    ∀ (fuel : Nat) (g : GNode) (steps i k : Nat),
      runGraph d fuel g steps i = .finished k → k ≤ steps + fuel := by
  intro fuel
  induction fuel with
  | zero =>
      intro g steps i k h
      cases h
  | succ n ih =>
      intro g steps i k h
      cases g with
      | Supervisor =>
          unfold runGraph at h
          rcases hp : path_map (d i) with _ | t
          · rw [hp] at h; cases h
          · rcases t with g' | _
            · rw [hp] at h
              have := ih g' (steps + 1) (i + 1) k h
              omega
            · rw [hp] at h
              injection h with h'
              omega
      | Developer =>
          unfold runGraph at h
          have := ih .Supervisor (steps + 1) i k h
          omega
      | Support =>
          unfold runGraph at h
          have := ih .Supervisor (steps + 1) i k h
          omega
      | Scientist =>
          unfold runGraph at h
          have := ih .Supervisor (steps + 1) i k h
          omega

theorem runGraph_workers_boundExceeded (d : Nat → String)
    (hd : ∀ n, d n ∈ workerNames) :
    ∀ (fuel : Nat) (g : GNode) (steps i : Nat),
      runGraph d fuel g steps i = .boundExceeded := by
  intro fuel
  induction fuel with
  | zero => intro g steps i; rfl
  | succ n ih =>
      intro g steps i
      cases g with
      | Supervisor =>
          obtain ⟨g', hg⟩ := path_map_of_worker (d i) (hd i)
          unfold runGraph
          rw [hg]
          exact ih g' (steps + 1) (i + 1)
      | Developer => unfold runGraph; exact ih .Supervisor (steps + 1) i
      | Support => unfold runGraph; exact ih .Supervisor (steps + 1) i
      | Scientist => unfold runGraph; exact ih .Supervisor (steps + 1) i

/-- Claim C6: every bounded run of the orchestration graph terminates — a
run that finishes does so within the step bound, and a supervisor that
endlessly routes to workers makes the run trip the bound as an explicit
bound-exceeded failure rather than looping or truncating silently. -/
theorem C6_bounded_termination :
    (∀ (decisions : Nat → String) (bound : Nat) (g : GNode) (i k : Nat),
        runGraph decisions bound g 0 i = .finished k → k ≤ bound)
    ∧ (∀ (decisions : Nat → String) (bound : Nat) (g : GNode) (i : Nat),
        (∀ n, decisions n ∈ workerNames) →
        runGraph decisions bound g 0 i = .boundExceeded) := by
  constructor
  · intro decisions bound g i k h
    have := runGraph_finished_le decisions bound g 0 i k h
    omega
  · intro decisions bound g i hd
    exact runGraph_workers_boundExceeded decisions hd bound g 0 i

/-- Witness for C6 at the default bound of 20: a supervisor that immediately
emits FINISH finishes in one transition (within the bound), and one that
always routes to Developer trips the bound. -/
theorem C6_witness :
    (1 ≤ defaultStepBound)
    ∧ runGraph (fun _ => "Developer") defaultStepBound .Supervisor 0 0
        = .boundExceeded :=
  ⟨C6_bounded_termination.1 (fun _ => "FINISH") defaultStepBound .Supervisor 0 1 rfl,
   C6_bounded_termination.2 (fun _ => "Developer") defaultStepBound .Supervisor 0
     (fun _ => by simp [workerNames])⟩

/-- Claim C2, divergence at the failing input: re-running the indexer on the
unchanged file `/docs/a.txt` (content "hello"), already recorded in the
manifest with any hash — in particular its true content hash — reports
"Indexed: a.txt" rather than any up-to-date status, inserts a duplicate
document (the stored count for the path goes from 1 to 2), and leaves the
manifest file untouched. -/
theorem C2_unchanged_file_reindexed (h : String) (t : Int) (ids : List String) :
    (update_knowledge_base_from_files [("/docs/a.txt", "hello")]
        (indexedWorld h t ids) "/docs/a.txt").1 = "Indexed: a.txt"
    ∧ pyIn "up-to-date" (update_knowledge_base_from_files [("/docs/a.txt", "hello")]
        (indexedWorld h t ids) "/docs/a.txt").1 = false
    ∧ countDocsFor (indexedWorld h t ids) "/docs/a.txt" = 1
    ∧ countDocsFor (update_knowledge_base_from_files [("/docs/a.txt", "hello")]
        (indexedWorld h t ids) "/docs/a.txt").2 "/docs/a.txt" = 2
    ∧ (update_knowledge_base_from_files [("/docs/a.txt", "hello")]
        (indexedWorld h t ids) "/docs/a.txt").2.manifestFile
        = (indexedWorld h t ids).manifestFile :=
  ⟨rfl, rfl, rfl, rfl, rfl⟩

/-- Claim C3, divergence at the failing input: re-indexing `/docs/a.txt`
after its content changed to "hello v2" (manifest entry present with the old
hash and old chunk ids) deletes nothing: the old document stays in the
store, the final stored set is the union of stale and new documents rather
than exactly the new chunking output, and the manifest keeps the old
entry. -/
theorem C3_changed_file_stale_retained (h : String) (t : Int) (ids : List String) :
    ((update_knowledge_base_from_files [("/docs/a.txt", "hello v2")]
        (indexedWorld h t ids) "/docs/a.txt").2.ctx.bind (fun c => c.vector_store))
        = some [helloDoc, helloV2Doc]
    ∧ ([helloDoc, helloV2Doc] = [helloV2Doc] → False)
    ∧ (update_knowledge_base_from_files [("/docs/a.txt", "hello v2")]
        (indexedWorld h t ids) "/docs/a.txt").2.manifestFile
        = some ⟨[("/docs/a.txt", ⟨h, t, ids⟩)]⟩ :=
  ⟨rfl, by decide, rfl⟩

/-- Claim C5, divergence at the failing input: a successful indexing pass
(the file is read and reported "Indexed: a.txt") leaves the on-disk manifest
exactly as it was — no per-path entry with the new hash/mtime/chunk-id list
is written and nothing is persisted, for any prior manifest contents
including an absent file. -/
theorem C5_manifest_never_persisted (m : Option Manifest) :
    (update_knowledge_base_from_files [("/docs/a.txt", "hello")]
        ⟨some ⟨"op", [], [], [], [], some [], none⟩, m⟩ "/docs/a.txt").1
        = "Indexed: a.txt"
    ∧ (update_knowledge_base_from_files [("/docs/a.txt", "hello")]
        ⟨some ⟨"op", [], [], [], [], some [], none⟩, m⟩ "/docs/a.txt").2.manifestFile
        = m :=
  ⟨rfl, rfl⟩

